import Mathlib

/-!
Shallow embedding of the MongoManager monitoring subsystem
(`services/monitoringService.js`, the WebSocket fan-out in `server.js`,
and the connection delete route in `routes/connections.js`).

External collaborators (the MongoDB driver, the mongoose registry) are
modelled by explicit behaviour parameters: the probe outcome of a tick is a
`ProbeStep`, and each `connection.save()` call is an `Option String`
(`none` = the write succeeds, `some msg` = the write throws an error whose
message is `msg`), exactly where the JavaScript awaits those calls.
-/

namespace MongoManager

/-- Connection status as stored on a registry record
(`status ∈ {disconnected, connected, error}`). -/
inductive ConnStatus
  | disconnected
  | connected
  | error
deriving DecidableEq, Repr

/-- A registry `Connection` document: identity, user-editable connection
fields, and the derived status fields written by the monitor. -/
structure ConnectionRecord where
  id : String
  name : String
  host : String
  port : Nat
  username : Option String := none
  password : Option String := none
  database : Option String := none
  authSource : Option String := none
  ssl : Bool := false
  replicaSet : Option String := none
  isActive : Bool := true
  status : ConnStatus := ConnStatus.disconnected
  lastConnected : Option Nat := none
  uptime : Nat := 0
  errorMessage : String := ""
deriving DecidableEq, Repr

/-- The `serverStatus.connections` sub-document (concurrent connection count). -/
structure ConnCounts where
  current : Nat
deriving DecidableEq, Repr

/-- The `serverStatus.mem` sub-document (resident memory, MB). -/
structure MemInfo where
  resident : Nat
deriving DecidableEq, Repr

/-- The subset of the driver `serverStatus` reply that the monitor reads.
`connections` and `mem` are optional: a server may omit them, and
`checkAlerts` guards on their presence. -/
structure ServerStatus where
  uptime : Nat
  connections : Option ConnCounts := none
  mem : Option MemInfo := none
  opcounters : Nat := 0
  network : Nat := 0
deriving DecidableEq, Repr

/-- The metrics object built on a successful probe (lines 49-57 of the
monitoring service). -/
structure Metrics where
  timestamp : Nat
  responseTime : Nat
  connections : Option ConnCounts
  memory : Option MemInfo
  operations : Nat
  network : Nat
  uptime : Nat
deriving DecidableEq, Repr

/-- Builds the metrics object exactly as the success path of
`checkConnectionHealth` does. -/
def mkMetrics (now responseTime : Nat) (server : ServerStatus) : Metrics :=
  { timestamp := now
    responseTime := responseTime
    connections := server.connections
    memory := server.mem
    operations := server.opcounters
    network := server.network
    uptime := server.uptime }

/-- An alert record pushed by `checkAlerts`. -/
structure Alert where
  type : String
  message : String
  severity : String
  connectionId : String
  connectionName : String
deriving DecidableEq, Repr

/-- The pure part of `checkAlerts` (lines 94-128): the list of alerts the
three threshold rules emit for one (connection, metrics) pair, in push
order. A missing `memory` or `connections` field skips its rule. -/
def checkAlertsList (connection : ConnectionRecord) (metrics : Metrics) : List Alert :=
  (if metrics.responseTime > 1000 then
    [{ type := "high_response_time"
       message := "High response time: " ++ toString metrics.responseTime ++ "ms"
       severity := "warning"
       connectionId := connection.id
       connectionName := connection.name }]
   else []) ++
  (match metrics.memory with
   | some mem =>
     if mem.resident > 1000 then
       [{ type := "high_memory_usage"
          message := "High memory usage: " ++ toString mem.resident ++ "MB"
          severity := "warning"
          connectionId := connection.id
          connectionName := connection.name }]
     else []
   | none => []) ++
  (match metrics.connections with
   | some conns =>
     if conns.current > 100 then
       [{ type := "high_connection_count"
          message := "High connection count: " ++ toString conns.current
          severity := "warning"
          connectionId := connection.id
          connectionName := connection.name }]
     else []
   | none => [])

/-- The aggregate alert buffer update (lines 130-136): append the new
alerts, then keep only the last 100 (`this.alerts.slice(-100)`). -/
def pushAlerts (alerts newAlerts : List Alert) : List Alert :=
  let all := alerts ++ newAlerts
  if all.length > 100 then all.drop (all.length - 100) else all

/-- The in-memory state of the monitoring service singleton:
`this.metrics` (a map from connection id to the latest metrics object,
modelled as an association list with `Map.set` overwrite semantics) and
`this.alerts` (the aggregate alert buffer). -/
structure MonitoringState where
  metrics : List (String × Metrics)
  alerts : List Alert
deriving DecidableEq, Repr

/-- `Map.set`: replace the entry for the key if present, else append. -/
def mapSet {α : Type} : List (String × α) → String → α → List (String × α)
  | [], k, v => [(k, v)]
  | (k2, v2) :: rest, k, v =>
    if k2 = k then (k, v) :: rest else (k2, v2) :: mapSet rest k v

/-- `Map.get`: the value bound to the key, if any. -/
def mapGet {α : Type} : List (String × α) → String → Option α
  | [], _ => none
  | (k2, v2) :: rest, k => if k2 = k then some v2 else mapGet rest k

/-- A registered WebSocket observer: an identity and a `readyState`
(1 = OPEN, the only state in which `ws.send` is attempted). -/
structure Observer where
  oid : Nat
  readyState : Nat := 1
deriving DecidableEq, Repr

/-- An event handed to the fan-out channel: the JSON messages of lines
64-68 (`type: metrics`) and 83-87 (`type: error`). -/
inductive WsEvent
  | metricsEvent (connectionId : String) (data : Metrics)
  | errorEvent (connectionId : String) (error : String)
deriving DecidableEq, Repr

/-- The connection id an event is addressed to. -/
def WsEvent.connId : WsEvent → String
  | WsEvent.metricsEvent c _ => c
  | WsEvent.errorEvent c _ => c

/-- Registering an observer for a connection id
(`activeConnections.set(data.connectionId, ws)` in the server's
`register` message handler). -/
def subscribe (subs : List (String × Observer)) (connectionId : String)
    (ws : Observer) : List (String × Observer) :=
  mapSet subs connectionId ws

/-- One publish through the fan-out channel: look up the observer for the
event's connection id and deliver only if it exists and is OPEN
(`if (ws && ws.readyState === 1) ws.send(...)`). Returns the deliveries
made, tagged with the receiving observer's identity. -/
def publishToChannel (subs : List (String × Observer)) (ev : WsEvent) :
    List (Nat × WsEvent) :=
  match mapGet subs ev.connId with
  | some ws => if ws.readyState = 1 then [(ws.oid, ev)] else []
  | none => []

/-- Where in the probe sequence the driver calls fail, if they do:
`connect`, then `ping`, then `serverStatus`, each may throw. -/
inductive FailKind
  | connect
  | ping
  | serverStatus
deriving DecidableEq, Repr

/-- The outcome of the driver interaction of one probe: success with a
measured response time and a `serverStatus` reply, or a failure at one of
the three await points carrying the thrown error's message. -/
inductive ProbeStep
  | ok (responseTime : Nat) (server : ServerStatus)
  | connectFail (msg : String)
  | pingFail (msg : String)
  | statusFail (msg : String)
deriving DecidableEq, Repr

/-- The failure `ProbeStep` at a given await point. -/
def failStep : FailKind → String → ProbeStep
  | FailKind.connect, m => ProbeStep.connectFail m
  | FailKind.ping, m => ProbeStep.pingFail m
  | FailKind.serverStatus, m => ProbeStep.statusFail m

/-- Everything one `checkConnectionHealth` call produces: the record as
mutated in memory, the monitoring state, the events handed to the fan-out
channel (in order), the deliveries the channel made, whether
`client.close()` was ever called, and what was logged by the catch block. -/
structure HealthCheckResult where
  record : ConnectionRecord
  state : MonitoringState
  published : List WsEvent
  delivered : List (Nat × WsEvent)
  clientClosed : Bool
  loggedError : Option String
deriving DecidableEq, Repr

/-- The catch block of `checkConnectionHealth` (lines 74-91), entered with
the record in whatever state the try block left it and with the thrown
error's message. It sets `status = error` and `errorMessage`, then awaits
`connection.save()`: if that save throws (`save2 = some e`) the exception
escapes `checkConnectionHealth` (there is no further handler), and neither
the WebSocket send nor the log happen. Otherwise it publishes one `error`
event and logs. The catch block never calls `client.close()`. -/
def healthCheckCatch (connection : ConnectionRecord) (errMsg : String)
    (save2 : Option String) (st : MonitoringState)
    (subs : List (String × Observer)) (clientClosed : Bool) :
    Except String HealthCheckResult :=
  let rec2 := { connection with status := ConnStatus.error, errorMessage := errMsg }
  match save2 with
  | some saveErr => Except.error saveErr
  | none =>
    let ev := WsEvent.errorEvent connection.id errMsg
    Except.ok
      { record := rec2
        state := st
        published := [ev]
        delivered := publishToChannel subs ev
        clientClosed := clientClosed
        loggedError := some errMsg }

/-- `checkConnectionHealth` (lines 23-92). `probe` is the driver's
behaviour on this call; `save1` is the behaviour of the success-path
`connection.save()` (line 46) and `save2` that of the catch-path save
(line 78); `now` is the current time. On success: `client.close()` runs
first (line 39, the only close in the function), the record is set to
connected with `lastConnected = now`, empty error message and the reported
uptime, the metrics are stored under the connection's id, one `metrics`
event is published, and the alert rules run. A save failure on the success
path transfers control to the catch block with the record already
mutated. -/
def checkConnectionHealth (connection : ConnectionRecord) (probe : ProbeStep)
    (save1 save2 : Option String) (now : Nat) (st : MonitoringState)
    (subs : List (String × Observer)) : Except String HealthCheckResult :=
  match probe with
  | ProbeStep.connectFail msg => healthCheckCatch connection msg save2 st subs false
  | ProbeStep.pingFail msg => healthCheckCatch connection msg save2 st subs false
  | ProbeStep.statusFail msg => healthCheckCatch connection msg save2 st subs false
  | ProbeStep.ok responseTime server =>
    let rec1 := { connection with
      status := ConnStatus.connected
      lastConnected := some now
      errorMessage := ""
      uptime := server.uptime }
    match save1 with
    | some saveErr => healthCheckCatch rec1 saveErr save2 st subs true
    | none =>
      let metrics := mkMetrics now responseTime server
      let st1 := { st with metrics := mapSet st.metrics connection.id metrics }
      let ev := WsEvent.metricsEvent connection.id metrics
      let newAlerts := checkAlertsList rec1 metrics
      let st2 := { st1 with alerts := pushAlerts st1.alerts newAlerts }
      Except.ok
        { record := rec1
          state := st2
          published := [ev]
          delivered := publishToChannel subs ev
          clientClosed := true
          loggedError := none }

/-- The per-connection behaviour of the external collaborators during one
tick: the probe outcome and the two possible save calls. -/
structure TickEnv where
  probe : ConnectionRecord → ProbeStep
  save1 : ConnectionRecord → Option String
  save2 : ConnectionRecord → Option String

/-- The observable outcome of one tick: the updated records of the
connections that were checked, the final monitoring state, every event
published, the records the prober was invoked against (in order), and the
error that escaped the for-loop, if any (caught and logged by the
tick-level catch of `checkAllConnections`, line 19). -/
structure TickResult where
  records : List ConnectionRecord
  state : MonitoringState
  published : List WsEvent
  probed : List ConnectionRecord
  abortedWith : Option String
deriving DecidableEq, Repr

/-- The for-loop of `checkAllConnections` (lines 15-17): check each
connection in order; an exception thrown by `checkConnectionHealth`
aborts the remaining iterations. -/
def runChecks (env : TickEnv) (now : Nat) (subs : List (String × Observer)) :
    List ConnectionRecord → MonitoringState → TickResult
  | [], st =>
    { records := [], state := st, published := [], probed := [], abortedWith := none }
  | c :: rest, st =>
    match checkConnectionHealth c (env.probe c) (env.save1 c) (env.save2 c) now st subs with
    | Except.error e =>
      { records := [], state := st, published := [], probed := [c], abortedWith := some e }
    | Except.ok r =>
      let tail := runChecks env now subs rest r.state
      { records := r.record :: tail.records
        state := tail.state
        published := r.published ++ tail.published
        probed := c :: tail.probed
        abortedWith := tail.abortedWith }

/-- `checkAllConnections` (lines 11-21): fetch the active connections
(`Connection.find({ isActive: true })`, modelled as filtering the
registry), run the for-loop, and catch any escaping error at tick level
(logged, surfaced here as `abortedWith`; the function itself never
throws). -/
def checkAllConnections (registry : List ConnectionRecord) (env : TickEnv)
    (now : Nat) (st : MonitoringState) (subs : List (String × Observer)) :
    TickResult :=
  runChecks env now subs (registry.filter (fun c => c.isActive)) st

/-- The state the delete route can reach: the connection registry, the
monitoring service singleton, and the WebSocket subscription map. -/
structure AppState where
  registry : List ConnectionRecord
  monitoring : MonitoringState
  subscribers : List (String × Observer)
deriving DecidableEq, Repr

/-- `Connection.findByIdAndDelete(id)`: the deleted document (if one
matched) and the registry without it. -/
def findByIdAndDelete (registry : List ConnectionRecord) (id : String) :
    Option ConnectionRecord × List ConnectionRecord :=
  (registry.find? (fun r => r.id = id),
   registry.filter (fun r => r.id ≠ id))

/-- The delete route handler (`router.delete` in `routes/connections.js`,
lines 58-69): delete the registry document and answer 404 when it does not
exist. The handler touches nothing but the registry. The returned flag is
whether a document was found (the 200 vs 404 branch). -/
def deleteConnectionRoute (s : AppState) (id : String) : AppState × Bool :=
  match findByIdAndDelete s.registry id with
  | (none, _) => (s, false)
  | (some _, rest) => ({ s with registry := rest }, true)

/-- `getMetrics(connectionId)` (line 139-141). -/
def getMetrics (st : MonitoringState) (connectionId : String) : Option Metrics :=
  mapGet st.metrics connectionId

/-- The per-connection recent-history read of the Metrics Store: the store
keeps exactly one (the latest) metrics object per id, so the history
sequence is that single element when present. -/
def recentMetrics (st : MonitoringState) (connectionId : String) : List Metrics :=
  match mapGet st.metrics connectionId with
  | some m => [m]
  | none => []

/-- The fixed per-id capacity of the Metrics Store: the service keeps one
latest metrics object per connection id. -/
def metricsCapacity : Nat := 1

/-- Storing a probe result for a connection id
(`this.metrics.set(connection._id.toString(), metrics)`). -/
def recordMetrics (st : MonitoringState) (connectionId : String) (m : Metrics) :
    MonitoringState :=
  { st with metrics := mapSet st.metrics connectionId m }

/-! ### Helper lemmas about the association-list map operations -/

theorem mapGet_mapSet_self {α : Type} (m : List (String × α)) (k : String) (v : α) :
    mapGet (mapSet m k v) k = some v := by
  induction m with
  | nil => simp [mapSet, mapGet]
  | cons hd tl ih =>
    obtain ⟨k2, v2⟩ := hd
    by_cases h : k2 = k
    · simp [mapSet, mapGet, h]
    · simp [mapSet, mapGet, h, ih]

theorem mapSet_mapSet {α : Type} (m : List (String × α)) (k : String) (a b : α) :
    mapSet (mapSet m k a) k b = mapSet m k b := by
  induction m with
  | nil => simp [mapSet]
  | cons hd tl ih =>
    obtain ⟨k2, v2⟩ := hd
    by_cases h : k2 = k
    · simp [mapSet, h]
    · simp [mapSet, h, ih]

/-- The alert buffer is capped after every update: `pushAlerts` never
returns more than 100 alerts. -/
theorem pushAlerts_length_le (alerts newAlerts : List Alert) :
    (pushAlerts alerts newAlerts).length ≤ 100 := by
  simp only [pushAlerts]
  split
  · rename_i h
    rw [List.length_drop]
    omega
  · rename_i h
    simp only [gt_iff_lt, not_lt] at h
    exact h

/-! ### Claim theorems -/

/-- C3: The Alert Evaluator emits exactly the three threshold alerts,
each rule evaluated independently: `high_response_time` iff
`responseTime > 1000` (strict), `high_memory_usage` iff the memory figure
is present and `resident > 1000`, `high_connection_count` iff the
connection figure is present and `current > 100`; a missing optional field
contributes nothing. The length equation shows the rules are independent
and may all fire together. -/
theorem alert_evaluator_rules (conn : ConnectionRecord) (m : Metrics) :
    ((checkAlertsList conn m).countP (fun a => a.type == "high_response_time") =
      if 1000 < m.responseTime then 1 else 0)
    ∧ ((checkAlertsList conn m).countP (fun a => a.type == "high_memory_usage") =
      match m.memory with
      | some mem => if 1000 < mem.resident then 1 else 0
      | none => 0)
    ∧ ((checkAlertsList conn m).countP (fun a => a.type == "high_connection_count") =
      match m.connections with
      | some c => if 100 < c.current then 1 else 0
      | none => 0)
    ∧ ((checkAlertsList conn m).length =
      (if 1000 < m.responseTime then 1 else 0) +
      (match m.memory with
       | some mem => if 1000 < mem.resident then 1 else 0
       | none => 0) +
      (match m.connections with
       | some c => if 100 < c.current then 1 else 0
       | none => 0)) := by
  unfold checkAlertsList
  rcases m.memory with _ | mem <;> rcases m.connections with _ | c <;>
    by_cases h1 : 1000 < m.responseTime <;>
    simp [h1, List.countP_append, List.countP_cons, gt_iff_lt] <;>
    split_ifs <;> simp_all [List.countP, List.countP.go]

/-- C1: On a tick where the probe of an active connection succeeds and the
registry write succeeds, the scheduler sets `status = connected`,
`lastConnected = now`, an empty `errorMessage` and the reported uptime,
stores the probe's metrics under the connection's id, hands exactly one
`metrics` event carrying that id and those metrics to the fan-out channel,
and appends the evaluated alerts. -/
theorem scheduler_success_updates_and_publishes (connection : ConnectionRecord)
    (responseTime : Nat) (server : ServerStatus) (save2 : Option String)
    (now : Nat) (st : MonitoringState) (subs : List (String × Observer)) :
    ∃ r : HealthCheckResult,
      checkConnectionHealth connection (ProbeStep.ok responseTime server)
        none save2 now st subs = Except.ok r
      ∧ r.record.status = ConnStatus.connected
      ∧ r.record.lastConnected = some now
      ∧ r.record.errorMessage = ""
      ∧ r.record.uptime = server.uptime
      ∧ getMetrics r.state connection.id = some (mkMetrics now responseTime server)
      ∧ r.published = [WsEvent.metricsEvent connection.id (mkMetrics now responseTime server)]
      ∧ r.state.alerts =
          pushAlerts st.alerts (checkAlertsList r.record (mkMetrics now responseTime server)) := by
  refine ⟨_, rfl, rfl, rfl, rfl, rfl, ?_, rfl, rfl⟩
  simp [getMetrics, mapGet_mapSet_self]

/-- C2: On a tick where the probe of an active connection fails at any of
the three driver await points (connect, ping, serverStatus) and the
registry write of the error state succeeds, the scheduler sets
`status = error` and `errorMessage` to the failure's (non-empty) message,
hands exactly one `error` event for that id to the fan-out channel, and
leaves the monitoring state unchanged; moreover, with the registry write
succeeding, no probe outcome whatsoever makes `checkConnectionHealth`
throw, so the scheduler loop always proceeds. -/
theorem scheduler_failure_updates_and_publishes (connection : ConnectionRecord)
    (k : FailKind) (msg : String) (save1 : Option String) (now : Nat)
    (st : MonitoringState) (subs : List (String × Observer)) (hmsg : msg ≠ "") :
    (∃ r : HealthCheckResult,
      checkConnectionHealth connection (failStep k msg) save1 none now st subs
        = Except.ok r
      ∧ r.record.status = ConnStatus.error
      ∧ r.record.errorMessage = msg
      ∧ r.record.errorMessage ≠ ""
      ∧ r.published = [WsEvent.errorEvent connection.id msg]
      ∧ r.state = st)
    ∧ (∀ (probe : ProbeStep) (save1b : Option String),
        ∃ r : HealthCheckResult,
          checkConnectionHealth connection probe save1b none now st subs
            = Except.ok r) := by
  constructor
  · cases k <;> exact ⟨_, rfl, rfl, rfl, hmsg, rfl, rfl⟩
  · intro probe save1b
    cases probe <;> cases save1b <;> exact ⟨_, rfl⟩

/-- Witness for `scheduler_failure_updates_and_publishes` at a concrete
connection and failure. -/
theorem scheduler_failure_updates_and_publishes_witness :
    ∃ r : HealthCheckResult,
      checkConnectionHealth
        { id := "c1", name := "primary", host := "db.example", port := 27017 }
        (failStep FailKind.connect "connect ECONNREFUSED") none none 5
        { metrics := [], alerts := [] } [] = Except.ok r
      ∧ r.record.status = ConnStatus.error
      ∧ r.record.errorMessage ≠ "" := by
  obtain ⟨⟨r, h1, h2, _, h4, _⟩, _⟩ :=
    scheduler_failure_updates_and_publishes
      { id := "c1", name := "primary", host := "db.example", port := 27017 }
      FailKind.connect "connect ECONNREFUSED" none 5
      { metrics := [], alerts := [] } [] (by decide)
  exact ⟨r, h1, h2, h4⟩

/-- C10: A failed probe (with the error-path registry write succeeding)
changes only `status` and `errorMessage` on the record: `lastConnected`,
`uptime`, and every user-editable connection field keep their previous
values. -/
theorem failed_probe_frame (connection : ConnectionRecord) (k : FailKind)
    (msg : String) (save1 : Option String) (now : Nat) (st : MonitoringState)
    (subs : List (String × Observer)) :
    ∃ r : HealthCheckResult,
      checkConnectionHealth connection (failStep k msg) save1 none now st subs
        = Except.ok r
      ∧ r.record = { connection with status := ConnStatus.error, errorMessage := msg }
      ∧ r.record.lastConnected = connection.lastConnected
      ∧ r.record.uptime = connection.uptime
      ∧ r.record.id = connection.id
      ∧ r.record.name = connection.name
      ∧ r.record.host = connection.host
      ∧ r.record.port = connection.port
      ∧ r.record.username = connection.username
      ∧ r.record.password = connection.password
      ∧ r.record.database = connection.database
      ∧ r.record.authSource = connection.authSource
      ∧ r.record.ssl = connection.ssl
      ∧ r.record.replicaSet = connection.replicaSet
      ∧ r.record.isActive = connection.isActive := by
  cases k <;>
    exact ⟨_, rfl, rfl, rfl, rfl, rfl, rfl, rfl, rfl, rfl, rfl, rfl, rfl, rfl, rfl, rfl⟩

/-- C5 (divergence witness): the transient client handle is NOT released
on the failure paths. `checkConnectionHealth` calls `client.close()` only
on the success path (line 39, before the status update); the catch block
has no close and the function has no finally, so after a connect, ping, or
serverStatus failure the probe returns with the client never closed. The
success path, by contrast, does close it. -/
theorem probe_failure_leaves_client_open :
    (∃ r : HealthCheckResult,
      checkConnectionHealth
        { id := "c1", name := "primary", host := "db.example", port := 27017 }
        (ProbeStep.pingFail "ping timed out") none none 0
        { metrics := [], alerts := [] } [] = Except.ok r
      ∧ r.clientClosed = false)
    ∧ (∃ r : HealthCheckResult,
      checkConnectionHealth
        { id := "c1", name := "primary", host := "db.example", port := 27017 }
        (ProbeStep.connectFail "connect ECONNREFUSED") none none 0
        { metrics := [], alerts := [] } [] = Except.ok r
      ∧ r.clientClosed = false)
    ∧ (∃ r : HealthCheckResult,
      checkConnectionHealth
        { id := "c1", name := "primary", host := "db.example", port := 27017 }
        (ProbeStep.statusFail "not authorized on admin") none none 0
        { metrics := [], alerts := [] } [] = Except.ok r
      ∧ r.clientClosed = false)
    ∧ (∃ r : HealthCheckResult,
      checkConnectionHealth
        { id := "c1", name := "primary", host := "db.example", port := 27017 }
        (ProbeStep.ok 5 { uptime := 10 }) none none 0
        { metrics := [], alerts := [] } [] = Except.ok r
      ∧ r.clientClosed = true) :=
  ⟨⟨_, rfl, rfl⟩, ⟨_, rfl, rfl⟩, ⟨_, rfl, rfl⟩, ⟨_, rfl, rfl⟩⟩

/-- In one tick loop, only connections from the enumerated list are probed. -/
theorem runChecks_probed_mem (env : TickEnv) (now : Nat)
    (subs : List (String × Observer)) (l : List ConnectionRecord) :
    ∀ (st : MonitoringState) (r : ConnectionRecord),
      r ∈ (runChecks env now subs l st).probed → r ∈ l := by
  induction l with
  | nil => intro st r h; simp [runChecks] at h
  | cons c rest ih =>
    intro st r h
    rw [runChecks] at h
    rcases hc : checkConnectionHealth c (env.probe c) (env.save1 c) (env.save2 c)
        now st subs with e | res
    · rw [hc] at h
      simp at h
      simp [h]
    · rw [hc] at h
      simp at h
      rcases h with h | h
      · simp [h]
      · exact List.mem_cons_of_mem _ (ih res.state r h)

/-- If no exception escapes the loop, every enumerated connection is
probed, in order. -/
theorem runChecks_probed_complete (env : TickEnv) (now : Nat)
    (subs : List (String × Observer)) (l : List ConnectionRecord) :
    ∀ st : MonitoringState,
      (runChecks env now subs l st).abortedWith = none →
      (runChecks env now subs l st).probed = l := by
  induction l with
  | nil => intro st _; simp [runChecks]
  | cons c rest ih =>
    intro st h
    rw [runChecks] at h ⊢
    rcases hc : checkConnectionHealth c (env.probe c) (env.save1 c) (env.save2 c)
        now st subs with e | res
    · rw [hc] at h
      simp at h
    · rw [hc] at h
      simp at h ⊢
      exact ih res.state h

/-- C4 (amended): the prober is only ever invoked against records of the
registry with `isActive = true` — an inactive record is never probed; and
whenever no exception escapes the tick's loop (in particular whenever the
registry writes succeed), the probed records are exactly the active ones,
in registry order. -/
theorem tick_probes_only_active (registry : List ConnectionRecord) (env : TickEnv)
    (now : Nat) (st : MonitoringState) (subs : List (String × Observer)) :
    (∀ r ∈ (checkAllConnections registry env now st subs).probed,
      r ∈ registry ∧ r.isActive = true)
    ∧ ((checkAllConnections registry env now st subs).abortedWith = none →
      (checkAllConnections registry env now st subs).probed
        = registry.filter (fun c => c.isActive)) := by
  constructor
  · intro r hr
    have hmem := runChecks_probed_mem env now subs
      (registry.filter (fun c => c.isActive)) st r hr
    rw [List.mem_filter] at hmem
    exact ⟨hmem.1, hmem.2⟩
  · intro h
    exact runChecks_probed_complete env now subs
      (registry.filter (fun c => c.isActive)) st h

/-- A connection record as registered through the API (defaults for the
optional and derived fields). -/
def sampleA : ConnectionRecord :=
  { id := "a", name := "alpha", host := "db-a.example", port := 27017 }

/-- A second, distinct active connection record. -/
def sampleB : ConnectionRecord :=
  { id := "b", name := "beta", host := "db-b.example", port := 27018 }

/-- The monitoring service state at process start. -/
def emptyState : MonitoringState := { metrics := [], alerts := [] }

/-- Collaborator behaviour: every probe and every registry write succeeds. -/
def allOkEnv : TickEnv :=
  { probe := fun _ => ProbeStep.ok 5 { uptime := 10 }
    save1 := fun _ => none
    save2 := fun _ => none }

/-- Witness for `tick_probes_only_active`: a concrete two-connection tick
in which nothing fails probes exactly the active records. -/
theorem tick_probes_only_active_witness :
    (checkAllConnections [sampleA, sampleB] allOkEnv 0 emptyState []).abortedWith = none
    ∧ (checkAllConnections [sampleA, sampleB] allOkEnv 0 emptyState []).probed
        = ([sampleA, sampleB].filter (fun c => c.isActive))
    ∧ ∀ r ∈ (checkAllConnections [sampleA, sampleB] allOkEnv 0 emptyState []).probed,
        r ∈ [sampleA, sampleB] ∧ r.isActive = true := by
  refine ⟨by decide, ?_, ?_⟩
  · exact (tick_probes_only_active [sampleA, sampleB] allOkEnv 0 emptyState []).2
      (by decide)
  · exact (tick_probes_only_active [sampleA, sampleB] allOkEnv 0 emptyState []).1

/-- Collaborator behaviour refuting C4 as stated: connection `a`'s probe
fails (connect refused) and the registry then refuses the error-state
write, so the exception from the catch-block save escapes the loop. -/
def probeCrashEnv : TickEnv :=
  { probe := fun c =>
      if c.id = "a" then ProbeStep.connectFail "connect ECONNREFUSED"
      else ProbeStep.ok 5 { uptime := 10 }
    save1 := fun _ => none
    save2 := fun c => if c.id = "a" then some "registry unavailable" else none }

/-- C4 counterexample: a tick in which the active record `sampleB` is
never probed — after `sampleA`'s probe failure the error-path registry
write throws, the loop aborts, and `sampleB` is skipped although it is
active. So a tick does not always probe every record with
`isActive = true`. -/
theorem tick_probes_exactly_active_counterexample :
    sampleB.isActive = true
    ∧ sampleB ∈ [sampleA, sampleB]
    ∧ (checkAllConnections [sampleA, sampleB] probeCrashEnv 0 emptyState []).probed
        = [sampleA]
    ∧ sampleB ∉ (checkAllConnections [sampleA, sampleB] probeCrashEnv 0 emptyState []).probed := by
  decide

/-- Collaborator behaviour for the registry-write-failure scenario:
connection `a` probes fine but the registry rejects both the success-path
write and the subsequent error-path write; connection `b` is healthy. -/
def writeFailEnv : TickEnv :=
  { probe := fun _ => ProbeStep.ok 5 { uptime := 10 }
    save1 := fun c => if c.id = "a" then some "registry write failed" else none
    save2 := fun c => if c.id = "a" then some "registry write failed" else none }

/-- C6 (divergence witness): a registry write failure is NOT confined to
its connection. When `connection.save()` fails for `sampleA` (on the
success path and again in the catch block), the exception escapes
`checkConnectionHealth`, the tick's for-loop aborts, and the still-active
`sampleB` is not probed in that tick; the error is only caught and logged
at tick level. -/
theorem registry_write_failure_aborts_tick :
    (checkAllConnections [sampleA, sampleB] writeFailEnv 0 emptyState []).probed
        = [sampleA]
    ∧ (checkAllConnections [sampleA, sampleB] writeFailEnv 0 emptyState []).abortedWith
        = some "registry write failed"
    ∧ sampleB.isActive = true
    ∧ sampleB ∉ (checkAllConnections [sampleA, sampleB] writeFailEnv 0 emptyState []).probed
    ∧ (checkAllConnections [sampleA, sampleB] writeFailEnv 0 emptyState []).published = [] := by
  decide

/-- C7: The Metrics Store's per-id history never exceeds its fixed
capacity (the service keeps exactly one latest metrics object per
connection id, so the capacity is 1); after inserting capacity + 1 = 2
results for an id, the older result has been evicted (overwritten) and the
newest is present. The aggregate alert buffer cited alongside it is also
bounded: every `pushAlerts` leaves at most 100 alerts. -/
theorem metrics_store_bounded (st : MonitoringState) (id : String)
    (m1 m2 : Metrics) (newAlerts : List Alert) :
    (recentMetrics st id).length ≤ metricsCapacity
    ∧ recentMetrics (recordMetrics (recordMetrics st id m1) id m2) id = [m2]
    ∧ (m1 ≠ m2 →
        m1 ∉ recentMetrics (recordMetrics (recordMetrics st id m1) id m2) id)
    ∧ (pushAlerts st.alerts newAlerts).length ≤ 100 := by
  have hrec : recentMetrics (recordMetrics (recordMetrics st id m1) id m2) id = [m2] := by
    unfold recentMetrics recordMetrics
    simp [mapGet_mapSet_self]
  refine ⟨?_, hrec, ?_, pushAlerts_length_le st.alerts newAlerts⟩
  · unfold recentMetrics metricsCapacity
    rcases mapGet st.metrics id with _ | m <;> simp
  · intro hne
    rw [hrec]
    simp [hne]

/-- Witness for `metrics_store_bounded` at a concrete store and two
distinct results. -/
theorem metrics_store_bounded_witness :
    recentMetrics
      (recordMetrics
        (recordMetrics emptyState "c1" (mkMetrics 0 5 { uptime := 10 }))
        "c1" (mkMetrics 1 6 { uptime := 11 }))
      "c1" = [mkMetrics 1 6 { uptime := 11 }]
    ∧ mkMetrics 0 5 { uptime := 10 } ∉
        recentMetrics
          (recordMetrics
            (recordMetrics emptyState "c1" (mkMetrics 0 5 { uptime := 10 }))
            "c1" (mkMetrics 1 6 { uptime := 11 }))
          "c1" := by
  obtain ⟨_, h2, h3, _⟩ :=
    metrics_store_bounded emptyState "c1" (mkMetrics 0 5 { uptime := 10 })
      (mkMetrics 1 6 { uptime := 11 }) []
  exact ⟨h2, h3 (by decide)⟩

/-- C8: Registering a second observer under a connection id already bound
to another replaces it silently — `subscribe id A` then `subscribe id B`
leaves the subscription map exactly as `subscribe id B` alone would, and
every delivery the channel then makes for that id reaches only B, even
though A never unsubscribed. -/
theorem fanout_last_subscriber_wins (subs : List (String × Observer))
    (id : String) (A B : Observer) (ev : WsEvent) (hev : ev.connId = id) :
    subscribe (subscribe subs id A) id B = subscribe subs id B
    ∧ ∀ d ∈ publishToChannel (subscribe (subscribe subs id A) id B) ev,
        d.1 = B.oid := by
  refine ⟨mapSet_mapSet subs id A B, ?_⟩
  intro d hd
  unfold publishToChannel subscribe at hd
  rw [mapSet_mapSet, hev, mapGet_mapSet_self] at hd
  by_cases hb : B.readyState = 1
  · simp [hb] at hd
    simp [hd]
  · simp [hb] at hd

/-- Witness for `fanout_last_subscriber_wins` at a concrete pair of
observers and a concrete metrics event. -/
theorem fanout_last_subscriber_wins_witness :
    subscribe (subscribe [] "c1" { oid := 1 }) "c1" { oid := 2 }
      = subscribe [] "c1" { oid := 2 }
    ∧ ∀ d ∈ publishToChannel (subscribe (subscribe [] "c1" { oid := 1 }) "c1" { oid := 2 })
        (WsEvent.metricsEvent "c1" (mkMetrics 0 5 { uptime := 10 })),
        d.1 = 2 := by
  exact fanout_last_subscriber_wins [] "c1" { oid := 1 } { oid := 2 }
    (WsEvent.metricsEvent "c1" (mkMetrics 0 5 { uptime := 10 })) rfl

/-- A metrics object as stored by a successful probe, for the concrete
delete-route scenario. -/
def sampleMetrics : Metrics := mkMetrics 0 5 { uptime := 10 }

/-- An application state with one registered connection `"a"`, its stored
metrics, and a live subscriber for its id. -/
def sampleAppState : AppState :=
  { registry := [sampleA]
    monitoring := { metrics := [("a", sampleMetrics)], alerts := [] }
    subscribers := [("a", { oid := 7 })] }

/-- C9 counterexample: deleting connection `"a"` removes its registry
record (the route answers success), yet its Metrics Store entry and its
fan-out subscription are both still present afterwards — the delete route
performs no unregistration. -/
theorem delete_leaves_metrics_and_subscription :
    (deleteConnectionRoute sampleAppState "a").1.registry = []
    ∧ (deleteConnectionRoute sampleAppState "a").2 = true
    ∧ getMetrics (deleteConnectionRoute sampleAppState "a").1.monitoring "a"
        = some sampleMetrics
    ∧ mapGet (deleteConnectionRoute sampleAppState "a").1.subscribers "a"
        = some { oid := 7, readyState := 1 } := by
  decide

/-- C9 (amended): the delete route removes only the registry record: the
monitoring state (hence every Metrics Store entry) and the subscription
map are returned unchanged, and the registry loses exactly the records
with the deleted id (when one exists; otherwise the route answers 404 and
changes nothing). -/
theorem delete_removes_only_registry_record (s : AppState) (id : String) :
    (deleteConnectionRoute s id).1.monitoring = s.monitoring
    ∧ (deleteConnectionRoute s id).1.subscribers = s.subscribers
    ∧ (deleteConnectionRoute s id).1.registry =
        (if (s.registry.find? (fun r => r.id = id)).isSome
         then s.registry.filter (fun r => r.id ≠ id)
         else s.registry)
    ∧ (deleteConnectionRoute s id).2 = (s.registry.find? (fun r => r.id = id)).isSome := by
  unfold deleteConnectionRoute findByIdAndDelete
  rcases h : s.registry.find? (fun r => r.id = id) with _ | r <;> simp [h]

end MongoManager
